import Mathlib

/-!
Shallow embedding of src/elastic/workday-es.py.

The script polls a Workday REST API on a fixed schedule: it reads and
validates config.json at module load, then every cycle acquires an OAuth2
access token (get_access_token, up to 3 POST attempts with 10 s backoff),
fetches data with it (fetch_workday_data, same retry policy), and writes the
payload to the log (log_data).  The outer loop catches Exception-class errors
from main and sleeps 3600 s between cycles; SIGINT/SIGTERM run signal_handler,
which logs and calls sys.exit(0).

JSON values are modelled as a mutual inductive (numbers as integers — the
claims do not depend on float formatting).  HTTP behaviour of an endpoint is
modelled as a function from the attempt index to an outcome: either a
transport-level RequestException with no response, or a response with a status
code and a body that is or is not valid JSON.  Effects (log lines, sleeps,
issued requests) are returned explicitly.
-/

namespace WorkdayES

mutual

inductive Json where
  | null : Json
  | bool : Bool → Json
  | num : Int → Json
  | str : String → Json
  | arr : JsonList → Json
  | obj : JsonObj → Json

inductive JsonList where
  | nil : JsonList
  | cons : Json → JsonList → JsonList

inductive JsonObj where
  | nil : JsonObj
  | cons : String → Json → JsonObj → JsonObj

end

/-- Python truthiness of a JSON value (`bool(x)` for the values json.loads
can return): None, False, 0, empty string, empty list and empty dict are
falsy, everything else truthy. -/
def Json.truthy : Json → Bool
  | .null => false
  | .bool b => b
  | .num n => decide (n ≠ 0)
  | .str s => !s.isEmpty
  | .arr .nil => false
  | .arr (.cons _ _) => true
  | .obj .nil => false
  | .obj (.cons _ _ _) => true

/-- Lookup in a parsed JSON object with Python dict semantics: json.loads
keeps the LAST binding of a duplicated key. -/
def JsonObj.lookupLast (k : String) : JsonObj → Option Json
  | .nil => none
  | .cons k₁ v rest =>
    match JsonObj.lookupLast k rest with
    | some r => some r
    | none => if k₁ = k then some v else none

/-- Four lowercase hex digits, as Python uses in \uXXXX escapes. -/
def hex4 (n : Nat) : String :=
  let d := fun (m : Nat) =>
    if m < 10 then Char.ofNat (48 + m) else Char.ofNat (87 + m)
  String.mk [d (n / 4096 % 16), d (n / 256 % 16), d (n / 16 % 16), d (n % 16)]

/-- Escaping of one character inside a JSON string literal, as json.dumps
with ensure_ascii=True performs it: the two-character escapes for quote,
backslash and the control characters b, t, n, f, r; \u00XX for the remaining
control characters; printable ASCII verbatim; \uXXXX for other characters in
the basic plane and a surrogate pair for characters beyond it. -/
def jsonEscapeChar (c : Char) : String :=
  if c = Char.ofNat 34 then String.mk [Char.ofNat 92, Char.ofNat 34]
  else if c = Char.ofNat 92 then String.mk [Char.ofNat 92, Char.ofNat 92]
  else if c = Char.ofNat 8 then "\\b"
  else if c = Char.ofNat 9 then "\\t"
  else if c = Char.ofNat 10 then "\\n"
  else if c = Char.ofNat 12 then "\\f"
  else if c = Char.ofNat 13 then "\\r"
  else if c.toNat < 32 then "\\u" ++ hex4 c.toNat
  else if c.toNat < 127 then String.mk [c]
  else if c.toNat ≤ 65535 then "\\u" ++ hex4 c.toNat
  else
    let v := c.toNat - 65536
    "\\u" ++ hex4 (55296 + v / 1024) ++ "\\u" ++ hex4 (56320 + v % 1024)

/-- A JSON string literal for s, as json.dumps renders it. -/
def jsonQuote (s : String) : String :=
  "\"" ++ String.join (s.data.map jsonEscapeChar) ++ "\""

mutual

/-- json.dumps with default options (separators (", ", ": "),
ensure_ascii=True): the serialisation used by log_data. -/
def Json.dumps : Json → String
  | .null => "null"
  | .bool true => "true"
  | .bool false => "false"
  | .num n => toString n
  | .str s => jsonQuote s
  | .arr xs => "[" ++ JsonList.dumpsItems xs ++ "]"
  | .obj kvs => "\x7b" ++ JsonObj.dumpsItems kvs ++ "\x7d"

def JsonList.dumpsItems : JsonList → String
  | .nil => ""
  | .cons x .nil => Json.dumps x
  | .cons x (.cons y rest) => Json.dumps x ++ ", " ++ JsonList.dumpsItems (.cons y rest)

def JsonObj.dumpsItems : JsonObj → String
  | .nil => ""
  | .cons k v .nil => jsonQuote k ++ ": " ++ Json.dumps v
  | .cons k v (.cons k₁ v₁ rest) =>
    jsonQuote k ++ ": " ++ Json.dumps v ++ ", " ++ JsonObj.dumpsItems (.cons k₁ v₁ rest)

end

/-- The raw body of an HTTP response, as response.json() sees it: either
bytes that do not parse as JSON (response.json() then raises
requests.exceptions.JSONDecodeError, a RequestException subclass), or bytes
that parse to a JSON value. -/
inductive Body where
  | invalidJson : String → Body
  | jsonBody : Json → Body

/-- What one HTTP request observes: a transport-level RequestException with
no response attached (e.response is None), or a response with a status code
and a body. -/
inductive HttpOutcome where
  | transportError : HttpOutcome
  | response : Nat → Body → HttpOutcome

/-- requests' Response.raise_for_status raises HTTPError exactly for client
(4xx) and server (5xx) error statuses. -/
def raiseForStatus (status : Nat) : Bool :=
  decide (400 ≤ status ∧ status < 600)

/-- Python truthiness of e.response in the except blocks (an
Optional[Response]): None is falsy, and requests' Response.__bool__ returns
self.ok, which is true exactly when raise_for_status would not raise.  This
is the guard of the two lines logging the response content. -/
def responseTruthy : Option (Nat × Body) → Bool
  | none => false
  | some (status, _) => !raiseForStatus status

/-- The rendering of a caught RequestException, as interpolated into the
error log lines. -/
inductive ExnInfo where
  | transportError : ExnInfo
  | httpError : Nat → ExnInfo
  | jsonDecodeError : ExnInfo

/-- Exception-class exceptions the script can raise out of main:
response.json()["access_token"] raises KeyError when the parsed 2xx body is
a dict without that key, and TypeError when it is not a dict. -/
inductive PyExn where
  | keyError : String → PyExn
  | typeError : PyExn

/-- The distinct log messages the script emits (fixed texts are represented
by constructors; the data-dependent parts are carried as fields). -/
inductive Msg where
  | tokenSuccess : Msg
  | tokenError : ExnInfo → Msg
  | responseContent : Body → Msg
  | tokenRetry : Msg
  | fetchSuccess : Msg
  | fetchError : ExnInfo → Msg
  | fetchRetry : Msg
  | dataLine : String → Msg
  | noData : Msg
  | noToken : Msg
  | unexpected : PyExn → Msg
  | shutdown : Msg

/-- One log record: logger.info or logger.error with a message. -/
inductive LogEntry where
  | info : Msg → LogEntry
  | error : Msg → LogEntry

/-- The lines `if e.response: logger.error(f"Response content: ...")` in
both except blocks: log the response content when e.response is truthy. -/
def contentLog (r : Option (Nat × Body)) : List LogEntry :=
  if responseTruthy r then
    match r with
    | some (_, b) => [.error (.responseContent b)]
    | none => []
  else []

/-- Outcome of the body of one iteration of the retry loop in
get_access_token (source lines 49-65, before the backoff logic): the token
value returned, an uncaught exception, or a caught RequestException. -/
inductive AttemptStep where
  | ok : Json → List LogEntry → AttemptStep
  | raised : PyExn → List LogEntry → AttemptStep
  | caught : List LogEntry → AttemptStep

/-- One attempt of get_access_token: POST the form, raise_for_status, log
success, then return response.json()["access_token"].  A transport error, an
HTTP error status or an invalid JSON body is a RequestException, caught by
the except block, which logs the error and then the response content guarded
by e.response truthiness; a parsed body without the access_token key raises
KeyError, a non-dict parsed body raises TypeError, neither caught. -/
def tokenAttempt : HttpOutcome → AttemptStep
  | .transportError =>
    .caught ([.error (.tokenError .transportError)] ++ contentLog none)
  | .response status body =>
    if raiseForStatus status then
      .caught ([.error (.tokenError (.httpError status))] ++
        contentLog (some (status, body)))
    else
      match body with
      | .invalidJson _ =>
        .caught ([.info .tokenSuccess, .error (.tokenError .jsonDecodeError)] ++
          contentLog none)
      | .jsonBody j =>
        match j with
        | .obj kvs =>
          match kvs.lookupLast "access_token" with
          | some v => .ok v [.info .tokenSuccess]
          | none => .raised (.keyError "access_token") [.info .tokenSuccess]
        | _ => .raised .typeError [.info .tokenSuccess]

/-- Effects and result of one call to get_access_token: the value of the
Python call (None after three caught failures, the token value on success,
or an uncaught exception), the log lines written, the time.sleep calls made,
and the number of HTTP POST requests issued. -/
structure TokenResult where
  result : Except PyExn (Option Json)
  log : List LogEntry
  sleeps : List Nat
  posts : Nat

/-- The `for attempt in range(3)` loop of get_access_token, on the list of
remaining attempt indices: on a caught failure it logs the retry notice and
sleeps 10 s when attempt < 2, then continues; falling off the loop returns
None. -/
def getTokenLoop (env : Nat → HttpOutcome) : List Nat → TokenResult
  | [] => ⟨.ok none, [], [], 0⟩
  | attempt :: rest =>
    match tokenAttempt (env attempt) with
    | .ok v lg => ⟨.ok (some v), lg, [], 1⟩
    | .raised e lg => ⟨.error e, lg, [], 1⟩
    | .caught lg =>
      let retryLg : List LogEntry := if attempt < 2 then [.info .tokenRetry] else []
      let retrySleep : List Nat := if attempt < 2 then [10] else []
      let r := getTokenLoop env rest
      ⟨r.result, lg ++ retryLg ++ r.log, retrySleep ++ r.sleeps, 1 + r.posts⟩

/-- get_access_token (source lines 47-69), over the behaviour env of the
token endpoint (outcome of the POST on each attempt index). -/
def get_access_token (env : Nat → HttpOutcome) : TokenResult :=
  getTokenLoop env [0, 1, 2]

/-- Outcome of the body of one iteration of the retry loop in
fetch_workday_data: the parsed payload, or a caught RequestException.
Nothing in this loop can raise an uncaught exception: response.json()
failures are JSONDecodeError, a RequestException subclass. -/
inductive FetchStep where
  | ok : Json → List LogEntry → FetchStep
  | caught : List LogEntry → FetchStep

/-- One attempt of fetch_workday_data: GET with the bearer header,
raise_for_status, log success, then return response.json(). -/
def fetchAttempt : HttpOutcome → FetchStep
  | .transportError =>
    .caught ([.error (.fetchError .transportError)] ++ contentLog none)
  | .response status body =>
    if raiseForStatus status then
      .caught ([.error (.fetchError (.httpError status))] ++
        contentLog (some (status, body)))
    else
      match body with
      | .invalidJson _ =>
        .caught ([.info .fetchSuccess, .error (.fetchError .jsonDecodeError)] ++
          contentLog none)
      | .jsonBody j => .ok j [.info .fetchSuccess]

/-- Effects and result of one call to fetch_workday_data: the value of the
Python call (None after three caught failures, else the parsed payload),
the log lines, the sleeps, and the number of HTTP GET requests issued. -/
structure FetchResult where
  result : Option Json
  log : List LogEntry
  sleeps : List Nat
  gets : Nat

/-- The `for attempt in range(3)` loop of fetch_workday_data, mirroring
getTokenLoop. -/
def fetchLoop (env : Nat → HttpOutcome) : List Nat → FetchResult
  | [] => ⟨none, [], [], 0⟩
  | attempt :: rest =>
    match fetchAttempt (env attempt) with
    | .ok v lg => ⟨some v, lg, [], 1⟩
    | .caught lg =>
      let retryLg : List LogEntry := if attempt < 2 then [.info .fetchRetry] else []
      let retrySleep : List Nat := if attempt < 2 then [10] else []
      let r := fetchLoop env rest
      ⟨r.result, lg ++ retryLg ++ r.log, retrySleep ++ r.sleeps, 1 + r.gets⟩

/-- fetch_workday_data (source lines 71-88), over the behaviour env of the
REST endpoint.  The access token parameter only feeds the Authorization
header; it does not influence the modelled control flow. -/
def fetch_workday_data (_access_token : Json) (env : Nat → HttpOutcome) : FetchResult :=
  fetchLoop env [0, 1, 2]

/-- log_data (source lines 90-91): one logger.info line holding
json.dumps(data). -/
def log_data (data : Json) : List LogEntry :=
  [.info (.dataLine (Json.dumps data))]

/-- Effects and result of one call to main: whether it returned normally or
raised, the log lines, the sleeps, and the requests issued. -/
structure MainResult where
  result : Except PyExn Unit
  log : List LogEntry
  sleeps : List Nat
  posts : Nat
  gets : Nat

/-- main (source lines 93-102): acquire a token; `if access_token:` — Python
truthiness, so None and falsy token values alike take the noToken branch —
then fetch; `if data:` — again truthiness — then log_data, else the noData
error.  An exception raised by get_access_token propagates out of main. -/
def main (tokenEnv dataEnv : Nat → HttpOutcome) : MainResult :=
  let t := get_access_token tokenEnv
  match t.result with
  | .error e => ⟨.error e, t.log, t.sleeps, t.posts, 0⟩
  | .ok none => ⟨.ok (), t.log ++ [.error .noToken], t.sleeps, t.posts, 0⟩
  | .ok (some tok) =>
    if tok.truthy then
      let f := fetch_workday_data tok dataEnv
      match f.result with
      | some d =>
        if d.truthy then
          ⟨.ok (), t.log ++ f.log ++ log_data d, t.sleeps ++ f.sleeps, t.posts, f.gets⟩
        else
          ⟨.ok (), t.log ++ f.log ++ [.error .noData], t.sleeps ++ f.sleeps, t.posts, f.gets⟩
      | none =>
        ⟨.ok (), t.log ++ f.log ++ [.error .noData], t.sleeps ++ f.sleeps, t.posts, f.gets⟩
    else ⟨.ok (), t.log ++ [.error .noToken], t.sleeps, t.posts, 0⟩

/-- Effects of one iteration of the `while True` scheduler loop: whether the
process goes on to the next cycle, the exit code if it terminates, the log
lines added by the except block, and the sleeps. -/
structure IterResult where
  continues : Bool
  exitCode : Option Nat
  log : List LogEntry
  sleeps : List Nat

/-- One iteration of the scheduler loop (source lines 105-110) around a
given pair of endpoint behaviours: `try: main() except Exception as e:` logs
the unexpected error; either way time.sleep(3600) follows.  Every exception
main can raise (PyExn) is an Exception subclass, hence caught here. -/
def loopBody (tokenEnv dataEnv : Nat → HttpOutcome) : IterResult :=
  let m := main tokenEnv dataEnv
  match m.result with
  | .ok () => ⟨true, none, m.log, m.sleeps ++ [3600]⟩
  | .error e => ⟨true, none, m.log ++ [.error (.unexpected e)], m.sleeps ++ [3600]⟩

/-- Exceptions at the process level, including BaseException subclasses that
are not Exception subclasses: sys.exit raises SystemExit, which derives from
BaseException directly. -/
inductive PyBaseExn where
  | exn : PyExn → PyBaseExn
  | requestExn : ExnInfo → PyBaseExn
  | systemExit : Nat → PyBaseExn

/-- The two except clauses appearing in the script. -/
inductive ExceptClause where
  | requestException : ExceptClause
  | exception : ExceptClause

/-- Which exceptions each except clause catches, per the Python class
hierarchy: `except requests.exceptions.RequestException` catches exactly the
RequestExceptions; `except Exception` catches every Exception subclass
(KeyError, TypeError, RequestException all are) but not SystemExit, which
derives from BaseException only. -/
def catches : ExceptClause → PyBaseExn → Bool
  | .requestException, .requestExn _ => true
  | .requestException, .exn _ => false
  | .requestException, .systemExit _ => false
  | .exception, .exn _ => true
  | .exception, .requestExn _ => true
  | .exception, .systemExit _ => false

/-- signal_handler (source lines 40-42), installed for SIGINT and SIGTERM:
logs the shutdown message and calls sys.exit(0), i.e. raises SystemExit
with code 0. -/
def signal_handler : List LogEntry × PyBaseExn :=
  ([.info .shutdown], .systemExit 0)

/-- One iteration of the scheduler loop whose cycle is cut short by an
uncaught SystemExit: the except block does not match, no sleep runs, the
process terminates with the carried code. -/
def loopBodyOnExit (code : Nat) : IterResult :=
  ⟨false, some code, [], []⟩

/-- Python truthiness of the result of dict.get: None when the key was
absent (falsy), else the truthiness of the value. -/
def optTruthy : Option Json → Bool
  | none => false
  | some j => j.truthy

/-- Python `k in j` for a JSON-decoded value j: key containment for a dict,
substring test for a string, element equality for a list; for the remaining
types `in` raises TypeError (None result). -/
def pyContains (j : Json) (k : String) : Option Bool :=
  match j with
  | .obj kvs => some (kvs.lookupLast k).isSome
  | .str s => some (k.isEmpty || decide (2 ≤ (s.splitOn k).length))
  | .arr xs => some (listHasStr xs k)
  | .null => none
  | .bool _ => none
  | .num _ => none
where
  listHasStr : JsonList → String → Bool
    | .nil, _ => false
    | .cons (.str s) rest, key => s = key || listHasStr rest key
    | .cons _ rest, key => listHasStr rest key

/-- `all(key in workday_config for key in required_workday_keys)`: the
generator is evaluated left to right, short-circuiting on the first False;
a TypeError raised by `in` propagates (None result). -/
def allKeysIn (j : Json) : List String → Option Bool
  | [] => some true
  | k :: ks =>
    match pyContains j k with
    | none => none
    | some false => some false
    | some true => allKeysIn j ks

/-- Python `j["k"]` on a JSON-decoded value: dict lookup; on every other
type (and on a missing key) an exception — TypeError, or KeyError for a
dict without the key — that nothing in the module-level code catches. -/
def pySubscript (j : Json) (k : String) : Option Json :=
  match j with
  | .obj kvs => kvs.lookupLast k
  | _ => none

def required_workday_keys : List String :=
  ["rest_api_endpoint", "token_endpoint", "client_id", "client_secret",
   "refresh_token"]

/-- The six module-level configuration globals extracted after validation
(source lines 14 and 33-37).  Values are whatever JSON values the file held;
the code never checks their type. -/
structure AppConfig where
  rest_api_endpoint : Json
  token_endpoint : Json
  client_id : Json
  client_secret : Json
  refresh_token : Json
  log_file_path : Json

/-- How the module-level startup code can end: sys.exit(code) after printing
a configuration diagnostic, an uncaught exception (the interpreter then
exits with a traceback and status 1), or falling through with the extracted
configuration. -/
inductive StartupResult where
  | exited : Nat → StartupResult
  | crashed : StartupResult
  | ok : AppConfig → StartupResult

/-- The module-level configuration validation and extraction (source lines
13-37), on the decoded config.json object: config.get of workday and
log_file_path, `if not all([workday_config, log_file_path]): sys.exit(1)`
(Python truthiness of both), then
`if not all(key in workday_config for key in required_workday_keys):
sys.exit(1)`, then the five subscript extractions. -/
def startup (config : JsonObj) : StartupResult :=
  let workday_config := config.lookupLast "workday"
  let log_file_path := config.lookupLast "log_file_path"
  if !(optTruthy workday_config && optTruthy log_file_path) then
    .exited 1
  else
    match workday_config, log_file_path with
    | some wd, some lfp =>
      match allKeysIn wd required_workday_keys with
      | none => .crashed
      | some false => .exited 1
      | some true =>
        match pySubscript wd "rest_api_endpoint", pySubscript wd "token_endpoint",
              pySubscript wd "client_id", pySubscript wd "client_secret",
              pySubscript wd "refresh_token" with
        | some a, some b, some c, some d, some e => .ok ⟨a, b, c, d, e, lfp⟩
        | _, _, _, _, _ => .crashed
    | _, _ => .exited 1

/-- Observable footprint of starting the process: exit code when startup
terminates it, whether a configuration diagnostic was printed, and the HTTP
requests issued up to and including the first cycle. -/
structure ProcessStart where
  exitCode : Option Nat
  diagnostic : Bool
  posts : Nat
  gets : Nat

/-- The process from interpreter start through the first cycle: module-level
startup, and — only when it neither exits nor crashes — the first call of
main inside the scheduler loop.  No HTTP request is made before or during
startup; both exits print their diagnostic first. -/
def runStartup (config : JsonObj) (tokenEnv dataEnv : Nat → HttpOutcome) :
    ProcessStart :=
  match startup config with
  | .exited c => ⟨some c, true, 0, 0⟩
  | .crashed => ⟨some 1, false, 0, 0⟩
  | .ok _ =>
    let m := main tokenEnv dataEnv
    ⟨none, false, m.posts, m.gets⟩

/-! Classifiers of log entries and of endpoint outcomes, used to state the
claims. -/

/-- The log entry is a JSON-encoded payload line (written only by
log_data). -/
def isDataLine : LogEntry → Bool
  | .info (.dataLine _) => true
  | .error (.dataLine _) => true
  | _ => false

/-- The log entry is a payload line holding exactly the string s. -/
def isDataLineFor (s : String) : LogEntry → Bool
  | .info (.dataLine t) => t = s
  | .error (.dataLine t) => t = s
  | _ => false

/-- The log entry is the no-data error of main. -/
def isNoData : LogEntry → Bool
  | .error .noData => true
  | .info .noData => true
  | _ => false

/-- The log entry is a response-content line (the body dump guarded by
`if e.response:`). -/
def isResponseContent : LogEntry → Bool
  | .error (.responseContent _) => true
  | .info (.responseContent _) => true
  | _ => false

/-- The entry shapes that one attempt of either retry loop (including its
retry notice) can write: attempt success/error lines and retry notices.
contentLog lines are absent because the guard is falsy on every path. -/
def attemptEntryShape : LogEntry → Bool
  | .info .tokenSuccess => true
  | .info .tokenRetry => true
  | .error (.tokenError _) => true
  | .info .fetchSuccess => true
  | .info .fetchRetry => true
  | .error (.fetchError _) => true
  | _ => false

/-- The attempt observed a failure the except block catches: a transport
error, or a status raise_for_status raises on. -/
def failedOutcome : HttpOutcome → Bool
  | .transportError => true
  | .response s _ => raiseForStatus s

/-- The attempt observed a 2xx response. -/
def twoXX : HttpOutcome → Bool
  | .transportError => false
  | .response s _ => decide (200 ≤ s ∧ s < 300)

/-- The access_token value carried by the attempt body, when the body is a
JSON object holding the key. -/
def tokenOf : HttpOutcome → Option Json
  | .response _ (.jsonBody (.obj kvs)) => kvs.lookupLast "access_token"
  | _ => none

/-- The uncaught exception one token attempt raises, if any. -/
def tokenAttemptRaises (o : HttpOutcome) : Option PyExn :=
  match tokenAttempt o with
  | .raised e _ => some e
  | _ => none

/-- The log lines of an attempt step. -/
def AttemptStep.logOf : AttemptStep → List LogEntry
  | .ok _ lg => lg
  | .raised _ lg => lg
  | .caught lg => lg

/-- The log lines of a fetch attempt step. -/
def FetchStep.logOf : FetchStep → List LogEntry
  | .ok _ lg => lg
  | .caught lg => lg

/-- A JSON value that is a non-empty string. -/
def isNonEmptyString : Json → Bool
  | .str s => !s.isEmpty
  | _ => false

/-! Helper lemmas. -/

theorem tokenAttempt_log_shape (o : HttpOutcome) :
    ∀ e ∈ (tokenAttempt o).logOf, attemptEntryShape e = true := by
  intro e he
  cases o with
  | transportError =>
    simp [tokenAttempt, contentLog, responseTruthy, AttemptStep.logOf] at he
    subst he; rfl
  | response status body =>
    by_cases hs : raiseForStatus status
    · simp [tokenAttempt, hs, contentLog, responseTruthy, AttemptStep.logOf] at he
      subst he; rfl
    · cases body with
      | invalidJson raw =>
        simp [tokenAttempt, hs, contentLog, responseTruthy, AttemptStep.logOf] at he
        rcases he with h | h <;> subst h <;> rfl
      | jsonBody j =>
        cases j with
        | obj kvs =>
          cases hk : kvs.lookupLast "access_token" with
          | some v =>
            simp [tokenAttempt, hs, hk, AttemptStep.logOf] at he
            subst he; rfl
          | none =>
            simp [tokenAttempt, hs, hk, AttemptStep.logOf] at he
            subst he; rfl
        | null =>
          simp [tokenAttempt, hs, AttemptStep.logOf] at he; subst he; rfl
        | bool b =>
          simp [tokenAttempt, hs, AttemptStep.logOf] at he; subst he; rfl
        | num n =>
          simp [tokenAttempt, hs, AttemptStep.logOf] at he; subst he; rfl
        | str s =>
          simp [tokenAttempt, hs, AttemptStep.logOf] at he; subst he; rfl
        | arr xs =>
          simp [tokenAttempt, hs, AttemptStep.logOf] at he; subst he; rfl

theorem fetchAttempt_log_shape (o : HttpOutcome) :
    ∀ e ∈ (fetchAttempt o).logOf, attemptEntryShape e = true := by
  intro e he
  cases o with
  | transportError =>
    simp [fetchAttempt, contentLog, responseTruthy, FetchStep.logOf] at he
    subst he; rfl
  | response status body =>
    by_cases hs : raiseForStatus status
    · simp [fetchAttempt, hs, contentLog, responseTruthy, FetchStep.logOf] at he
      subst he; rfl
    · cases body with
      | invalidJson raw =>
        simp [fetchAttempt, hs, contentLog, responseTruthy, FetchStep.logOf] at he
        rcases he with h | h <;> subst h <;> rfl
      | jsonBody j =>
        simp [fetchAttempt, hs, FetchStep.logOf] at he
        subst he; rfl

theorem getTokenLoop_log_shape (env : Nat → HttpOutcome) (l : List Nat) :
    ∀ e ∈ (getTokenLoop env l).log, attemptEntryShape e = true := by
  induction l with
  | nil => intro e he; simp [getTokenLoop] at he
  | cons a rest ih =>
    intro e he
    have hatt := tokenAttempt_log_shape (env a)
    cases h : tokenAttempt (env a) with
    | ok v lg =>
      rw [h] at hatt
      simp [getTokenLoop, h] at he
      exact hatt e he
    | raised ex lg =>
      rw [h] at hatt
      simp [getTokenLoop, h] at he
      exact hatt e he
    | caught lg =>
      rw [h] at hatt
      simp only [getTokenLoop, h, List.mem_append] at he
      rcases he with (he | he) | he
      · exact hatt e he
      · by_cases ha : a < 2
        · simp [ha] at he; subst he; rfl
        · simp [ha] at he
      · exact ih e he

theorem fetchLoop_log_shape (env : Nat → HttpOutcome) (l : List Nat) :
    ∀ e ∈ (fetchLoop env l).log, attemptEntryShape e = true := by
  induction l with
  | nil => intro e he; simp [fetchLoop] at he
  | cons a rest ih =>
    intro e he
    have hatt := fetchAttempt_log_shape (env a)
    cases h : fetchAttempt (env a) with
    | ok v lg =>
      rw [h] at hatt
      simp [fetchLoop, h] at he
      exact hatt e he
    | caught lg =>
      rw [h] at hatt
      simp only [fetchLoop, h, List.mem_append] at he
      rcases he with (he | he) | he
      · exact hatt e he
      · by_cases ha : a < 2
        · simp [ha] at he; subst he; rfl
        · simp [ha] at he
      · exact ih e he

theorem countP_zero_of_shape (p : LogEntry → Bool) (l : List LogEntry)
    (hl : ∀ e ∈ l, attemptEntryShape e = true)
    (hp : ∀ e, attemptEntryShape e = true → p e = false) :
    l.countP p = 0 := by
  apply List.countP_eq_zero.mpr
  intro e he
  simp [hp e (hl e he)]

theorem getTokenLoop_posts_le (env : Nat → HttpOutcome) (l : List Nat) :
    (getTokenLoop env l).posts ≤ l.length := by
  induction l with
  | nil => simp [getTokenLoop]
  | cons a rest ih =>
    cases h : tokenAttempt (env a) with
    | ok v lg => simp [getTokenLoop, h]
    | raised e lg => simp [getTokenLoop, h]
    | caught lg =>
      simp only [getTokenLoop, h, List.length_cons]
      omega

theorem tokenAttempt_caught_of_failed (o : HttpOutcome) (h : failedOutcome o = true) :
    ∃ lg, tokenAttempt o = .caught lg := by
  cases o with
  | transportError => exact ⟨_, rfl⟩
  | response s b =>
    have hs : raiseForStatus s = true := h
    exact ⟨[.error (.tokenError (.httpError s))] ++ contentLog (some (s, b)),
      by simp [tokenAttempt, hs]⟩

theorem tokenAttempt_ok_of_success (o : HttpOutcome) (tok : Json)
    (h2 : twoXX o = true) (h3 : tokenOf o = some tok) :
    tokenAttempt o = .ok tok [.info .tokenSuccess] := by
  cases o with
  | transportError => simp [twoXX] at h2
  | response s b =>
    have hs : raiseForStatus s = false := by
      simp only [twoXX, decide_eq_true_eq] at h2
      simp only [raiseForStatus, decide_eq_false_iff_not]
      omega
    cases b with
    | invalidJson raw => simp [tokenOf] at h3
    | jsonBody j =>
      cases j with
      | obj kvs => simp_all [tokenAttempt, tokenOf, hs]
      | null => simp [tokenOf] at h3
      | bool b => simp [tokenOf] at h3
      | num n => simp [tokenOf] at h3
      | str s => simp [tokenOf] at h3
      | arr xs => simp [tokenOf] at h3

theorem getTokenLoop_ok_of_no_raise (env : Nat → HttpOutcome) (l : List Nat)
    (h : ∀ a ∈ l, tokenAttemptRaises (env a) = none) :
    ∃ v, (getTokenLoop env l).result = Except.ok v := by
  induction l with
  | nil => exact ⟨none, rfl⟩
  | cons a rest ih =>
    cases ht : tokenAttempt (env a) with
    | ok v lg => exact ⟨some v, by simp [getTokenLoop, ht]⟩
    | raised e lg =>
      have hc := h a (by simp)
      simp [tokenAttemptRaises, ht] at hc
    | caught lg =>
      obtain ⟨v, hv⟩ := ih (fun b hb => h b (by simp [hb]))
      exact ⟨v, by simp [getTokenLoop, ht, hv]⟩

theorem shape_not_dataLineFor (s : String) :
    ∀ e, attemptEntryShape e = true → isDataLineFor s e = false := by
  intro e he
  cases e with
  | info m => cases m <;> simp_all [attemptEntryShape, isDataLineFor]
  | error m => cases m <;> simp_all [attemptEntryShape, isDataLineFor]

theorem shape_not_dataLine :
    ∀ e, attemptEntryShape e = true → isDataLine e = false := by
  intro e he
  cases e with
  | info m => cases m <;> simp_all [attemptEntryShape, isDataLine]
  | error m => cases m <;> simp_all [attemptEntryShape, isDataLine]

theorem shape_not_noData :
    ∀ e, attemptEntryShape e = true → isNoData e = false := by
  intro e he
  cases e with
  | info m => cases m <;> simp_all [attemptEntryShape, isNoData]
  | error m => cases m <;> simp_all [attemptEntryShape, isNoData]

theorem shape_not_responseContent :
    ∀ e, attemptEntryShape e = true → isResponseContent e = false := by
  intro e he
  cases e with
  | info m => cases m <;> simp_all [attemptEntryShape, isResponseContent]
  | error m => cases m <;> simp_all [attemptEntryShape, isResponseContent]

/-- Claim C1: get_access_token makes at most 3 POST attempts; when every
attempt fails (transport error or error status) it returns None without
raising, after sleeping 10 s after each failed attempt except the last
(two sleeps in all); and when the attempts before index i fail and attempt
i gets a 2xx response whose JSON object carries access_token, it returns
that token after i ten-second sleeps and i+1 POSTs. -/
theorem get_access_token_retry_policy :
    (∀ env, (get_access_token env).posts ≤ 3) ∧
    (∀ env, (∀ i, i < 3 → failedOutcome (env i) = true) →
      (get_access_token env).result = Except.ok none ∧
      (get_access_token env).sleeps = [10, 10] ∧
      (get_access_token env).posts = 3) ∧
    (∀ env i tok, i < 3 → (∀ j, j < i → failedOutcome (env j) = true) →
      twoXX (env i) = true → tokenOf (env i) = some tok →
      (get_access_token env).result = Except.ok (some tok) ∧
      (get_access_token env).sleeps = List.replicate i 10 ∧
      (get_access_token env).posts = i + 1) := by
  refine ⟨?_, ?_, ?_⟩
  · intro env
    exact getTokenLoop_posts_le env [0, 1, 2]
  · intro env hf
    obtain ⟨lg0, h0⟩ := tokenAttempt_caught_of_failed (env 0) (hf 0 (by omega))
    obtain ⟨lg1, h1⟩ := tokenAttempt_caught_of_failed (env 1) (hf 1 (by omega))
    obtain ⟨lg2, h2⟩ := tokenAttempt_caught_of_failed (env 2) (hf 2 (by omega))
    refine ⟨?_, ?_, ?_⟩ <;> simp [get_access_token, getTokenLoop, h0, h1, h2]
  · intro env i tok hi hf h2xx htok
    interval_cases i
    · have h0 := tokenAttempt_ok_of_success (env 0) tok h2xx htok
      refine ⟨?_, ?_, ?_⟩ <;> simp [get_access_token, getTokenLoop, h0]
    · obtain ⟨lg0, h0⟩ := tokenAttempt_caught_of_failed (env 0) (hf 0 (by omega))
      have h1 := tokenAttempt_ok_of_success (env 1) tok h2xx htok
      refine ⟨?_, ?_, ?_⟩ <;> simp [get_access_token, getTokenLoop, h0, h1]
    · obtain ⟨lg0, h0⟩ := tokenAttempt_caught_of_failed (env 0) (hf 0 (by omega))
      obtain ⟨lg1, h1⟩ := tokenAttempt_caught_of_failed (env 1) (hf 1 (by omega))
      have h2 := tokenAttempt_ok_of_success (env 2) tok h2xx htok
      refine ⟨?_, ?_, ?_⟩ <;> simp [get_access_token, getTokenLoop, h0, h1, h2]

/-- Witness for C1: a token endpoint answering 500 on every attempt yields
None after three POSTs and two 10 s sleeps; one failing twice at transport
level and answering 200 with a token on the third attempt yields that token
after three POSTs and two 10 s sleeps. -/
theorem get_access_token_retry_policy_witness :
    (get_access_token (fun _ => HttpOutcome.response 500 (Body.invalidJson "err"))).result
        = Except.ok none ∧
    (get_access_token (fun _ => HttpOutcome.response 500 (Body.invalidJson "err"))).sleeps
        = [10, 10] ∧
    (get_access_token (fun _ => HttpOutcome.response 500 (Body.invalidJson "err"))).posts = 3 ∧
    (get_access_token (fun i => if i < 2 then HttpOutcome.transportError else
        HttpOutcome.response 200 (Body.jsonBody
          (Json.obj (JsonObj.cons "access_token" (Json.str "tok3") JsonObj.nil))))).result
        = Except.ok (some (Json.str "tok3")) ∧
    (get_access_token (fun i => if i < 2 then HttpOutcome.transportError else
        HttpOutcome.response 200 (Body.jsonBody
          (Json.obj (JsonObj.cons "access_token" (Json.str "tok3") JsonObj.nil))))).sleeps
        = [10, 10] := by
  have hfail := get_access_token_retry_policy.2.1
    (fun _ => HttpOutcome.response 500 (Body.invalidJson "err"))
    (by intro i hi; rfl)
  have hthird := get_access_token_retry_policy.2.2
    (fun i => if i < 2 then HttpOutcome.transportError else
      HttpOutcome.response 200 (Body.jsonBody
        (Json.obj (JsonObj.cons "access_token" (Json.str "tok3") JsonObj.nil))))
    2 (Json.str "tok3") (by omega)
    (by intro j hj; interval_cases j <;> rfl) (by rfl) (by rfl)
  exact ⟨hfail.1, hfail.2.1, hfail.2.2, hthird.1, hthird.2.1⟩

/-- Counterexample to claim C3 as stated: the Data Fetcher successfully
returns the empty-object payload, yet main — testing it with `if data:`,
i.e. Python truthiness — writes the No-data error and no JSON-encoded
payload line. -/
theorem main_drops_falsy_payload :
    (fetch_workday_data (Json.str "tok")
        (fun _ => HttpOutcome.response 200 (Body.jsonBody (Json.obj JsonObj.nil)))).result
      = some (Json.obj JsonObj.nil) ∧
    List.countP isDataLine (main
        (fun _ => HttpOutcome.response 200 (Body.jsonBody
          (Json.obj (JsonObj.cons "access_token" (Json.str "tok") JsonObj.nil))))
        (fun _ => HttpOutcome.response 200 (Body.jsonBody (Json.obj JsonObj.nil)))).log = 0 ∧
    List.countP isNoData (main
        (fun _ => HttpOutcome.response 200 (Body.jsonBody
          (Json.obj (JsonObj.cons "access_token" (Json.str "tok") JsonObj.nil))))
        (fun _ => HttpOutcome.response 200 (Body.jsonBody (Json.obj JsonObj.nil)))).log = 1 := by
  exact ⟨rfl, rfl, rfl⟩

/-- Claim C3, amended: for every TRUTHY JSON payload the Data Fetcher
returns (given a truthy token), main writes exactly one log line holding
json.dumps of the payload and no No-data error; a falsy payload (empty
object or array, null, false, 0, empty string) takes the No-data branch
instead. -/
theorem main_logs_truthy_payload_amended (tE dE : Nat → HttpOutcome) (tok d : Json)
    (h1 : (get_access_token tE).result = Except.ok (some tok))
    (ht : tok.truthy = true)
    (h2 : (fetch_workday_data tok dE).result = some d)
    (hd : d.truthy = true) :
    List.countP (isDataLineFor (Json.dumps d)) (main tE dE).log = 1 ∧
    List.countP isNoData (main tE dE).log = 0 := by
  have hlog : (main tE dE).log =
      (get_access_token tE).log ++ (fetch_workday_data tok dE).log ++ log_data d := by
    simp [main, h1, ht, h2, hd]
  have htok0 : ∀ e ∈ (get_access_token tE).log, attemptEntryShape e = true :=
    getTokenLoop_log_shape tE [0, 1, 2]
  have hfet0 : ∀ e ∈ (fetch_workday_data tok dE).log, attemptEntryShape e = true :=
    fetchLoop_log_shape dE [0, 1, 2]
  rw [hlog]
  constructor
  · rw [List.countP_append, List.countP_append,
      countP_zero_of_shape _ _ htok0 (shape_not_dataLineFor _),
      countP_zero_of_shape _ _ hfet0 (shape_not_dataLineFor _)]
    simp [log_data, isDataLineFor]
  · rw [List.countP_append, List.countP_append,
      countP_zero_of_shape _ _ htok0 shape_not_noData,
      countP_zero_of_shape _ _ hfet0 shape_not_noData]
    simp [log_data, isNoData]

/-- Witness for the amended C3 at the payload from the spec example: one
data line holding its json.dumps rendering, no No-data error. -/
theorem main_logs_truthy_payload_amended_witness :
    List.countP (isDataLineFor (Json.dumps
        (Json.obj (JsonObj.cons "employees" (Json.arr JsonList.nil) JsonObj.nil))))
      (main (fun _ => HttpOutcome.response 200 (Body.jsonBody
          (Json.obj (JsonObj.cons "access_token" (Json.str "tok") JsonObj.nil))))
        (fun _ => HttpOutcome.response 200 (Body.jsonBody
          (Json.obj (JsonObj.cons "employees" (Json.arr JsonList.nil) JsonObj.nil))))).log = 1 ∧
    List.countP isNoData
      (main (fun _ => HttpOutcome.response 200 (Body.jsonBody
          (Json.obj (JsonObj.cons "access_token" (Json.str "tok") JsonObj.nil))))
        (fun _ => HttpOutcome.response 200 (Body.jsonBody
          (Json.obj (JsonObj.cons "employees" (Json.arr JsonList.nil) JsonObj.nil))))).log = 0 := by
  exact main_logs_truthy_payload_amended
    (fun _ => HttpOutcome.response 200 (Body.jsonBody
      (Json.obj (JsonObj.cons "access_token" (Json.str "tok") JsonObj.nil))))
    (fun _ => HttpOutcome.response 200 (Body.jsonBody
      (Json.obj (JsonObj.cons "employees" (Json.arr JsonList.nil) JsonObj.nil))))
    (Json.str "tok")
    (Json.obj (JsonObj.cons "employees" (Json.arr JsonList.nil) JsonObj.nil))
    rfl rfl rfl rfl

/-- Counterexample to claim C2 as stated: a token endpoint answering 200
with the JSON body keyed only by token_type (no access_token) makes main
raise KeyError — the error is NOT absorbed inside the cycle; only the outer
scheduler loop catches it. -/
theorem main_raises_on_missing_token_key :
    (main (fun _ => HttpOutcome.response 200
        (Body.jsonBody (Json.obj (JsonObj.cons "token_type" (Json.str "Bearer") JsonObj.nil))))
      (fun _ => HttpOutcome.transportError)).result
      = Except.error (PyExn.keyError "access_token") := by
  rfl

/-- Claim C2, amended: main returns normally for every behaviour of the two
endpoints except one family — a token response that passes raise_for_status
and whose JSON body lacks the access_token key (or is not an object), which
makes main raise KeyError or TypeError; such an exception escapes main and
is caught, logged and followed by the 3600 s sleep in the outer scheduler
loop. -/
theorem main_error_absorption_amended :
    (∀ tE dE : Nat → HttpOutcome, (∀ i, i < 3 → tokenAttemptRaises (tE i) = none) →
      (main tE dE).result = Except.ok ()) ∧
    (∀ tE dE : Nat → HttpOutcome, ∀ e, (main tE dE).result = Except.error e →
      (loopBody tE dE).continues = true ∧
      (loopBody tE dE).log = (main tE dE).log ++ [LogEntry.error (Msg.unexpected e)] ∧
      (loopBody tE dE).sleeps = (main tE dE).sleeps ++ [3600]) := by
  constructor
  · intro tE dE h
    obtain ⟨v, hv⟩ := getTokenLoop_ok_of_no_raise tE [0, 1, 2] (by
      intro a ha
      simp at ha
      rcases ha with rfl | rfl | rfl
      exacts [h 0 (by omega), h 1 (by omega), h 2 (by omega)])
    have hv' : (get_access_token tE).result = Except.ok v := hv
    cases v with
    | none => simp [main, hv']
    | some tok =>
      by_cases ht : tok.truthy
      · cases hf : (fetch_workday_data tok dE).result with
        | none => simp [main, hv', ht, hf]
        | some d =>
          by_cases hd : d.truthy
          · simp [main, hv', ht, hf, hd]
          · simp [main, hv', ht, hf, hd]
      · simp [main, hv', ht]
  · intro tE dE e he
    refine ⟨?_, ?_, ?_⟩ <;> simp [loopBody, he]

/-- Witness for the amended C2: with both endpoints failing at transport
level main returns normally, and with a 200 empty-object token body the
KeyError main raises is caught by the scheduler loop, which continues. -/
theorem main_error_absorption_amended_witness :
    (main (fun _ => HttpOutcome.transportError) (fun _ => HttpOutcome.transportError)).result
      = Except.ok () ∧
    (main (fun _ => HttpOutcome.response 200 (Body.jsonBody (Json.obj JsonObj.nil)))
      (fun _ => HttpOutcome.transportError)).result
      = Except.error (PyExn.keyError "access_token") ∧
    (loopBody (fun _ => HttpOutcome.response 200 (Body.jsonBody (Json.obj JsonObj.nil)))
      (fun _ => HttpOutcome.transportError)).continues = true := by
  refine ⟨?_, rfl, ?_⟩
  · exact main_error_absorption_amended.1 (fun _ => HttpOutcome.transportError)
      (fun _ => HttpOutcome.transportError) (fun i _ => rfl)
  · exact (main_error_absorption_amended.2
      (fun _ => HttpOutcome.response 200 (Body.jsonBody (Json.obj JsonObj.nil)))
      (fun _ => HttpOutcome.transportError) (PyExn.keyError "access_token") rfl).1

/-- Claim C5: when the Token Acquirer signals Failure (returns None), main
logs the no-token error and returns without calling fetch_workday_data: no
GET request is made in that cycle, and the cycle log is the token log
followed by the error line. -/
theorem main_skips_fetch_on_token_failure (tE dE : Nat → HttpOutcome)
    (h : (get_access_token tE).result = Except.ok none) :
    (main tE dE).gets = 0 ∧
    (main tE dE).log = (get_access_token tE).log ++ [LogEntry.error Msg.noToken] ∧
    (main tE dE).posts = (get_access_token tE).posts := by
  simp [main, h]

/-- Witness for C5 at a token endpoint that always fails at transport
level. -/
theorem main_skips_fetch_on_token_failure_witness :
    (get_access_token (fun _ => HttpOutcome.transportError)).result = Except.ok none ∧
    (main (fun _ => HttpOutcome.transportError) (fun _ => HttpOutcome.transportError)).gets = 0 ∧
    (main (fun _ => HttpOutcome.transportError) (fun _ => HttpOutcome.transportError)).log =
      (get_access_token (fun _ => HttpOutcome.transportError)).log ++
        [LogEntry.error Msg.noToken] := by
  refine ⟨rfl, ?_, ?_⟩
  · exact (main_skips_fetch_on_token_failure (fun _ => HttpOutcome.transportError)
      (fun _ => HttpOutcome.transportError) rfl).1
  · exact (main_skips_fetch_on_token_failure (fun _ => HttpOutcome.transportError)
      (fun _ => HttpOutcome.transportError) rfl).2.1

/-- Claim C4 (documenting the code bug): the response-content logging is
dead code.  The guard `if e.response:` tests Python truthiness of
e.response, and requests defines bool(response) as response.ok, which is
False for exactly the statuses on which raise_for_status raised; on
transport errors and JSON decode errors e.response is None.  So neither
retry loop ever writes a Response-content line — even when a failing
response with a body is available, as in the 500 instance below — though
the spec (and the evident intent of the line) is to log the body whenever a
response is present. -/
theorem response_content_never_logged :
    (∀ env, List.countP isResponseContent (get_access_token env).log = 0) ∧
    (∀ tok env, List.countP isResponseContent (fetch_workday_data tok env).log = 0) ∧
    responseTruthy (some (500, Body.invalidJson "Internal Server Error")) = false ∧
    List.countP isResponseContent
      (get_access_token
        (fun _ => HttpOutcome.response 500 (Body.invalidJson "Internal Server Error"))).log
      = 0 := by
  refine ⟨?_, ?_, rfl, rfl⟩
  · intro env
    exact countP_zero_of_shape _ _ (getTokenLoop_log_shape env [0, 1, 2])
      shape_not_responseContent
  · intro tok env
    exact countP_zero_of_shape _ _ (fetchLoop_log_shape env [0, 1, 2])
      shape_not_responseContent

theorem allKeysIn_false_of_missing (kvs : JsonObj) (ks : List String) (k : String)
    (hk : k ∈ ks) (hnone : kvs.lookupLast k = none) :
    allKeysIn (Json.obj kvs) ks = some false := by
  induction ks with
  | nil => simp at hk
  | cons a rest ih =>
    rcases List.mem_cons.mp hk with rfl | hmem
    · simp [allKeysIn, pyContains, hnone]
    · cases ha : (kvs.lookupLast a).isSome
      · simp [allKeysIn, pyContains, ha]
      · simp [allKeysIn, pyContains, ha, ih hmem]

/-- Claim C6: a configuration lacking workday, lacking log_file_path, or
whose workday object lacks one of the five required sub-fields makes
startup print a diagnostic and exit with status 1, and the process issues
no HTTP request at all. -/
theorem startup_rejects_missing_fields (config : JsonObj)
    (tE dE : Nat → HttpOutcome)
    (h : config.lookupLast "workday" = none ∨ config.lookupLast "log_file_path" = none ∨
      (∃ kvs, config.lookupLast "workday" = some (Json.obj kvs) ∧
        ∃ k, k ∈ required_workday_keys ∧ kvs.lookupLast k = none)) :
    (runStartup config tE dE).exitCode = some 1 ∧
    (runStartup config tE dE).diagnostic = true ∧
    (runStartup config tE dE).posts = 0 ∧
    (runStartup config tE dE).gets = 0 := by
  have hs : startup config = StartupResult.exited 1 := by
    rcases h with h1 | h2 | ⟨kvs, hw, k, hk, hnone⟩
    · simp [startup, h1, optTruthy]
    · simp [startup, h2, optTruthy]
    · cases hlf : config.lookupLast "log_file_path" with
      | none => simp [startup, hlf, optTruthy]
      | some lv =>
        by_cases hwt : (Json.obj kvs).truthy
        · by_cases hlv : lv.truthy
          · have hmiss := allKeysIn_false_of_missing kvs required_workday_keys k hk hnone
            simp [startup, hw, hlf, optTruthy, hwt, hlv, hmiss]
          · simp [startup, hw, hlf, optTruthy, hlv]
        · simp [startup, hw, hlf, optTruthy, hwt]
  refine ⟨?_, ?_, ?_, ?_⟩ <;> simp [runStartup, hs]

/-- Witness for C6 at the empty configuration object. -/
theorem startup_rejects_missing_fields_witness :
    (runStartup JsonObj.nil (fun _ => HttpOutcome.transportError)
      (fun _ => HttpOutcome.transportError)).exitCode = some 1 ∧
    (runStartup JsonObj.nil (fun _ => HttpOutcome.transportError)
      (fun _ => HttpOutcome.transportError)).posts = 0 ∧
    (runStartup JsonObj.nil (fun _ => HttpOutcome.transportError)
      (fun _ => HttpOutcome.transportError)).gets = 0 := by
  have h := startup_rejects_missing_fields JsonObj.nil
    (fun _ => HttpOutcome.transportError) (fun _ => HttpOutcome.transportError)
    (Or.inl rfl)
  exact ⟨h.1, h.2.2.1, h.2.2.2⟩

/-- Counterexample to claim C7 as stated: a configuration whose client_id
is the EMPTY string passes startup validation — the second check tests only
key presence (`key in workday_config`), never value truthiness or type —
so validation does not establish that the six fields are non-empty
strings. -/
theorem startup_accepts_empty_client_id :
    startup (JsonObj.cons "workday"
      (Json.obj (JsonObj.cons "rest_api_endpoint" (Json.str "https://api.example.com")
        (JsonObj.cons "token_endpoint" (Json.str "https://auth.example.com")
        (JsonObj.cons "client_id" (Json.str "")
        (JsonObj.cons "client_secret" (Json.str "sec")
        (JsonObj.cons "refresh_token" (Json.str "ref") JsonObj.nil))))))
      (JsonObj.cons "log_file_path" (Json.str "workday.log") JsonObj.nil))
      = StartupResult.ok ⟨Json.str "https://api.example.com",
          Json.str "https://auth.example.com", Json.str "", Json.str "sec",
          Json.str "ref", Json.str "workday.log"⟩ ∧
    isNonEmptyString (Json.str "") = false := by
  exact ⟨rfl, rfl⟩

/-- Claim C7, amended: passing startup validation guarantees that workday
is present and truthy, that log_file_path is present and truthy, and that
the five required workday keys are present (the extracted fields being
their values); it does NOT guarantee that the sub-field values are
non-empty strings. -/
theorem startup_invariant_amended (config : JsonObj) (cfg : AppConfig)
    (h : startup config = StartupResult.ok cfg) :
    cfg.log_file_path.truthy = true ∧
    config.lookupLast "log_file_path" = some cfg.log_file_path ∧
    ∃ kvs, config.lookupLast "workday" = some (Json.obj kvs) ∧
      (Json.obj kvs).truthy = true ∧
      kvs.lookupLast "rest_api_endpoint" = some cfg.rest_api_endpoint ∧
      kvs.lookupLast "token_endpoint" = some cfg.token_endpoint ∧
      kvs.lookupLast "client_id" = some cfg.client_id ∧
      kvs.lookupLast "client_secret" = some cfg.client_secret ∧
      kvs.lookupLast "refresh_token" = some cfg.refresh_token := by
  obtain ⟨c1, c2, c3, c4, c5, c6⟩ := cfg
  cases hw : config.lookupLast "workday" with
  | none => simp [startup, hw, optTruthy] at h
  | some wd =>
    cases hlf : config.lookupLast "log_file_path" with
    | none => simp [startup, hw, hlf, optTruthy] at h
    | some lv =>
      by_cases hwt : wd.truthy
      · by_cases hlv : lv.truthy
        · cases hall : allKeysIn wd required_workday_keys with
          | none => simp [startup, hw, hlf, optTruthy, hwt, hlv, hall] at h
          | some b =>
            cases b with
            | false => simp [startup, hw, hlf, optTruthy, hwt, hlv, hall] at h
            | true =>
              cases wd with
              | null => simp [startup, hw, hlf, optTruthy, hwt, hlv, hall, pySubscript] at h
              | bool bb => simp [startup, hw, hlf, optTruthy, hwt, hlv, hall, pySubscript] at h
              | num n => simp [startup, hw, hlf, optTruthy, hwt, hlv, hall, pySubscript] at h
              | str s => simp [startup, hw, hlf, optTruthy, hwt, hlv, hall, pySubscript] at h
              | arr xs => simp [startup, hw, hlf, optTruthy, hwt, hlv, hall, pySubscript] at h
              | obj kvs =>
                cases h1 : kvs.lookupLast "rest_api_endpoint" with
                | none =>
                  simp [startup, hw, hlf, optTruthy, hwt, hlv, hall, pySubscript, h1] at h
                | some v1 =>
                  cases h2 : kvs.lookupLast "token_endpoint" with
                  | none =>
                    simp [startup, hw, hlf, optTruthy, hwt, hlv, hall, pySubscript, h1, h2] at h
                  | some v2 =>
                    cases h3 : kvs.lookupLast "client_id" with
                    | none =>
                      simp [startup, hw, hlf, optTruthy, hwt, hlv, hall, pySubscript,
                        h1, h2, h3] at h
                    | some v3 =>
                      cases h4 : kvs.lookupLast "client_secret" with
                      | none =>
                        simp [startup, hw, hlf, optTruthy, hwt, hlv, hall, pySubscript,
                          h1, h2, h3, h4] at h
                      | some v4 =>
                        cases h5 : kvs.lookupLast "refresh_token" with
                        | none =>
                          simp [startup, hw, hlf, optTruthy, hwt, hlv, hall, pySubscript,
                            h1, h2, h3, h4, h5] at h
                        | some v5 =>
                          simp only [startup, hw, hlf, optTruthy, hwt, hlv, hall,
                            pySubscript, h1, h2, h3, h4, h5, Bool.and_self,
                            Bool.not_true, Bool.false_eq_true, if_false,
                            StartupResult.ok.injEq, AppConfig.mk.injEq] at h
                          obtain ⟨rfl, rfl, rfl, rfl, rfl, rfl⟩ := h
                          exact ⟨hlv, rfl, kvs, rfl, hwt, h1, h2, h3, h4, h5⟩
        · simp [startup, hw, hlf, optTruthy, hlv] at h
      · simp [startup, hw, hlf, optTruthy, hwt] at h

/-- Witness for the amended C7 at a fully populated configuration. -/
theorem startup_invariant_amended_witness :
    (Json.str "workday.log").truthy = true ∧
    ∃ kvs, (JsonObj.cons "workday"
        (Json.obj (JsonObj.cons "rest_api_endpoint" (Json.str "https://api.example.com")
          (JsonObj.cons "token_endpoint" (Json.str "https://auth.example.com")
          (JsonObj.cons "client_id" (Json.str "cid")
          (JsonObj.cons "client_secret" (Json.str "sec")
          (JsonObj.cons "refresh_token" (Json.str "ref") JsonObj.nil))))))
        (JsonObj.cons "log_file_path" (Json.str "workday.log")
          JsonObj.nil)).lookupLast "workday" = some (Json.obj kvs) ∧
      (Json.obj kvs).truthy = true ∧
      kvs.lookupLast "client_id" = some (Json.str "cid") := by
  have h := startup_invariant_amended
    (JsonObj.cons "workday"
      (Json.obj (JsonObj.cons "rest_api_endpoint" (Json.str "https://api.example.com")
        (JsonObj.cons "token_endpoint" (Json.str "https://auth.example.com")
        (JsonObj.cons "client_id" (Json.str "cid")
        (JsonObj.cons "client_secret" (Json.str "sec")
        (JsonObj.cons "refresh_token" (Json.str "ref") JsonObj.nil))))))
      (JsonObj.cons "log_file_path" (Json.str "workday.log") JsonObj.nil))
    ⟨Json.str "https://api.example.com", Json.str "https://auth.example.com",
      Json.str "cid", Json.str "sec", Json.str "ref", Json.str "workday.log"⟩
    rfl
  obtain ⟨hlv, _, kvs, hw, hwt, _, _, h3, _, _⟩ := h
  exact ⟨hlv, kvs, hw, hwt, h3⟩

/-- Claim C8: the scheduler loop survives every exception a cycle raises:
the loop body always continues to the next cycle and never terminates the
process, its sleeps end with the 3600 s inter-cycle sleep however the cycle
went, and when main raised e the loop appends the Unexpected-error line for
e to the cycle log. -/
theorem scheduler_loop_survives_cycle_errors :
    (∀ tE dE : Nat → HttpOutcome,
      (loopBody tE dE).continues = true ∧ (loopBody tE dE).exitCode = none ∧
      ∃ pre, (loopBody tE dE).sleeps = pre ++ [3600]) ∧
    (∀ tE dE : Nat → HttpOutcome, ∀ e, (main tE dE).result = Except.error e →
      (loopBody tE dE).log = (main tE dE).log ++
        [LogEntry.error (Msg.unexpected e)]) := by
  constructor
  · intro tE dE
    cases hm : (main tE dE).result with
    | ok u =>
      cases u
      refine ⟨?_, ?_, ⟨(main tE dE).sleeps, ?_⟩⟩ <;> simp [loopBody, hm]
    | error e =>
      refine ⟨?_, ?_, ⟨(main tE dE).sleeps, ?_⟩⟩ <;> simp [loopBody, hm]
  · intro tE dE e he
    simp [loopBody, he]

/-- Witness for C8: a 201 token response without access_token makes main
raise KeyError; the loop logs the Unexpected-error line and continues. -/
theorem scheduler_loop_survives_cycle_errors_witness :
    (loopBody (fun _ => HttpOutcome.response 201 (Body.jsonBody
        (Json.obj (JsonObj.cons "expires_in" (Json.num 3600) JsonObj.nil))))
      (fun _ => HttpOutcome.transportError)).log
      = (main (fun _ => HttpOutcome.response 201 (Body.jsonBody
          (Json.obj (JsonObj.cons "expires_in" (Json.num 3600) JsonObj.nil))))
        (fun _ => HttpOutcome.transportError)).log ++
        [LogEntry.error (Msg.unexpected (PyExn.keyError "access_token"))] ∧
    (loopBody (fun _ => HttpOutcome.response 201 (Body.jsonBody
        (Json.obj (JsonObj.cons "expires_in" (Json.num 3600) JsonObj.nil))))
      (fun _ => HttpOutcome.transportError)).continues = true := by
  constructor
  · exact scheduler_loop_survives_cycle_errors.2
      (fun _ => HttpOutcome.response 201 (Body.jsonBody
        (Json.obj (JsonObj.cons "expires_in" (Json.num 3600) JsonObj.nil))))
      (fun _ => HttpOutcome.transportError) (PyExn.keyError "access_token") rfl
  · exact (scheduler_loop_survives_cycle_errors.1
      (fun _ => HttpOutcome.response 201 (Body.jsonBody
        (Json.obj (JsonObj.cons "expires_in" (Json.num 3600) JsonObj.nil))))
      (fun _ => HttpOutcome.transportError)).1

/-- Claim C9: signal_handler logs the shutdown message and raises
SystemExit(0); SystemExit is caught neither by the RequestException
handlers of the retry loops nor by the `except Exception` of the scheduler
loop, so the iteration it interrupts performs no further sleep, does not
continue, and the process terminates with exit status 0. -/
theorem graceful_shutdown_on_signal :
    signal_handler.1 = [LogEntry.info Msg.shutdown] ∧
    signal_handler.2 = PyBaseExn.systemExit 0 ∧
    (∀ c : ExceptClause, catches c signal_handler.2 = false) ∧
    (loopBodyOnExit 0).continues = false ∧
    (loopBodyOnExit 0).exitCode = some 0 ∧
    (loopBodyOnExit 0).sleeps = [] := by
  refine ⟨rfl, rfl, ?_, rfl, rfl, rfl⟩
  intro c
  cases c <;> rfl

/-- Claim C10: main distinguishes success from failure by Python
truthiness, not presence: a token acquired with a FALSY value (such as the
empty string) takes the no-token branch — error logged, no GET issued —
and a successfully fetched FALSY payload takes the no-data branch instead
of being written to the log. -/
theorem main_truthiness_gates (tE dE : Nat → HttpOutcome) :
    (∀ v, (get_access_token tE).result = Except.ok (some v) → v.truthy = false →
      (main tE dE).gets = 0 ∧
      (main tE dE).log = (get_access_token tE).log ++ [LogEntry.error Msg.noToken]) ∧
    (∀ tok d, (get_access_token tE).result = Except.ok (some tok) → tok.truthy = true →
      (fetch_workday_data tok dE).result = some d → d.truthy = false →
      List.countP isNoData (main tE dE).log = 1 ∧
      List.countP isDataLine (main tE dE).log = 0) := by
  constructor
  · intro v h1 hv
    constructor <;> simp [main, h1, hv]
  · intro tok d h1 ht h2 hd
    have hlog : (main tE dE).log =
        (get_access_token tE).log ++ (fetch_workday_data tok dE).log ++
          [LogEntry.error Msg.noData] := by
      simp [main, h1, ht, h2, hd]
    have htok0 : ∀ e ∈ (get_access_token tE).log, attemptEntryShape e = true :=
      getTokenLoop_log_shape tE [0, 1, 2]
    have hfet0 : ∀ e ∈ (fetch_workday_data tok dE).log, attemptEntryShape e = true :=
      fetchLoop_log_shape dE [0, 1, 2]
    rw [hlog]
    constructor
    · rw [List.countP_append, List.countP_append,
        countP_zero_of_shape _ _ htok0 shape_not_noData,
        countP_zero_of_shape _ _ hfet0 shape_not_noData]
      simp [isNoData]
    · rw [List.countP_append, List.countP_append,
        countP_zero_of_shape _ _ htok0 shape_not_dataLine,
        countP_zero_of_shape _ _ hfet0 shape_not_dataLine]
      simp [isDataLine]

/-- Witness for C10: a 200 token response carrying the empty-string token
yields no-token handling and zero GETs; a truthy token with a fetched
empty-object payload yields the No-data error and no payload line. -/
theorem main_truthiness_gates_witness :
    (main (fun _ => HttpOutcome.response 200 (Body.jsonBody
        (Json.obj (JsonObj.cons "access_token" (Json.str "") JsonObj.nil))))
      (fun _ => HttpOutcome.transportError)).gets = 0 ∧
    List.countP isNoData (main
      (fun _ => HttpOutcome.response 200 (Body.jsonBody
        (Json.obj (JsonObj.cons "access_token" (Json.str "t") JsonObj.nil))))
      (fun _ => HttpOutcome.response 200 (Body.jsonBody (Json.arr JsonList.nil)))).log = 1 ∧
    List.countP isDataLine (main
      (fun _ => HttpOutcome.response 200 (Body.jsonBody
        (Json.obj (JsonObj.cons "access_token" (Json.str "t") JsonObj.nil))))
      (fun _ => HttpOutcome.response 200 (Body.jsonBody (Json.arr JsonList.nil)))).log = 0 := by
  refine ⟨?_, ?_, ?_⟩
  · exact ((main_truthiness_gates
      (fun _ => HttpOutcome.response 200 (Body.jsonBody
        (Json.obj (JsonObj.cons "access_token" (Json.str "") JsonObj.nil))))
      (fun _ => HttpOutcome.transportError)).1 (Json.str "") rfl rfl).1
  · exact ((main_truthiness_gates
      (fun _ => HttpOutcome.response 200 (Body.jsonBody
        (Json.obj (JsonObj.cons "access_token" (Json.str "t") JsonObj.nil))))
      (fun _ => HttpOutcome.response 200 (Body.jsonBody (Json.arr JsonList.nil)))).2
      (Json.str "t") (Json.arr JsonList.nil) rfl rfl rfl rfl).1
  · exact ((main_truthiness_gates
      (fun _ => HttpOutcome.response 200 (Body.jsonBody
        (Json.obj (JsonObj.cons "access_token" (Json.str "t") JsonObj.nil))))
      (fun _ => HttpOutcome.response 200 (Body.jsonBody (Json.arr JsonList.nil)))).2
      (Json.str "t") (Json.arr JsonList.nil) rfl rfl rfl rfl).2

end WorkdayES
